import Mathlib

/-!
Shallow embedding of `src/app.py` (webhook-trader), a Flask webhook that turns
TradingView alerts into OANDA market orders while maintaining a persisted
virtual balance.

Modelling choices:
* Python `Decimal` values are embedded as exact rationals (`ℚ`); the two
  quantisation points of the source (`quantize(Decimal("1"), ROUND_DOWN)` in
  `calculate_position_size` and `quantize(Decimal("0.01"), ROUND_DOWN)` in
  `save_balance`) are modelled explicitly as truncation toward zero.
* All network interaction is captured by an `Env` record holding the broker's
  responses for the single request being processed; side effects (ledger
  writes, the close PUT, the order POST, the trade-journal append) are
  reified as an `Event` trace returned alongside the result.
* Python exception flow is modelled with `Except`; the webhook handler's
  `except` clauses become the dispatch in `webhook`.
-/

namespace WebhookTrader

/-- Constant `LEVERAGE = Decimal("50")` in app.py. -/
def LEVERAGE : ℚ := 50

/-- Embedding of `q.quantize(Decimal("1"), ROUND_DOWN)`: Decimal `ROUND_DOWN` rounds toward
zero, which on an exact rational is truncated (T-)division of the numerator by
the denominator. -/
def truncTowardZero (q : ℚ) : ℤ := q.num.tdiv q.den

/-- Embedding of `bal.quantize(Decimal("0.01"), ROUND_DOWN)` as performed by `save_balance`
before writing the ledger file. -/
def quantize2 (q : ℚ) : ℚ := (truncTowardZero (q * 100) : ℚ) / 100

/-- Source `calculate_position_size(balance, price, side)`: notional = balance *
LEVERAGE, raw units = notional / price, truncated toward zero, negated for
`"SELL"`. -/
def calculate_position_size (balance price : ℚ) (side : String) : ℤ :=
  let notional_value := balance * LEVERAGE
  let raw_units := notional_value / price
  let units := truncTowardZero raw_units
  if side = "SELL" then -units else units

/-- Parsed body of the broker's GET `/positions/EUR_USD` response. -/
structure PositionData where
  longUnits : ℚ
  shortUnits : ℚ
  unrealizedPL : ℚ
deriving DecidableEq, Repr

/-- Outcome of the GET `/positions/{PAIR}` request. `err` covers a network
failure or a non-2xx status other than 404 (which `raise_for_status` raises
and `get_current_position`'s `except` clause then swallows). -/
inductive PosResp where
  | ok (p : PositionData)
  | notFound
  | err
deriving DecidableEq, Repr

/-- Outcome of the PUT `/positions/{PAIR}/close` request. On success the body
optionally carries `longOrderFillTransaction.pl` / `shortOrderFillTransaction.pl`. -/
inductive CloseResp where
  | ok (longPl shortPl : Option ℚ)
  | notFound
  | err
deriving DecidableEq, Repr

/-- One element of the pricing response's `prices` array: its `bids` and
`asks` arrays, each entry reduced to its `price` field. -/
structure PriceEntry where
  bids : List ℚ
  asks : List ℚ
deriving DecidableEq, Repr

/-- Outcome of the GET pricing request. -/
inductive PriceResp where
  | ok (prices : List PriceEntry)
  | err
deriving DecidableEq, Repr

/-- Outcome of the POST `/orders` request. -/
inductive OrderResp where
  | ok
  | err
deriving DecidableEq, Repr

/-- The broker's behaviour and the persisted ledger content for one webhook
request. `storedBalance` is the value `load_balance()` returns. -/
structure Env where
  storedBalance : ℚ
  positionResp : PosResp
  closeResp : CloseResp
  priceResp : PriceResp
  orderResp : OrderResp
deriving DecidableEq, Repr

/-- Observable side effects of one request, in order of occurrence. -/
inductive Event where
  | saveBalance (amount : ℚ)
  | closeRequest
  | orderRequest (units : ℤ)
  | logTrade
deriving DecidableEq, Repr

/-- Source `save_balance(bal)` writes the balance quantised to 2 decimal places
(ROUND_DOWN); we record the written amount as an event. -/
def save_balance (bal : ℚ) : Event := Event.saveBalance (quantize2 bal)

/-- Source `get_current_position()`: 404 yields `None`; any exception (including a
broker error) is caught and also yields `None`; a position whose total units
are zero yields `None`; otherwise the parsed position. -/
def get_current_position (env : Env) : Option PositionData :=
  match env.positionResp with
  | PosResp.ok p => if p.longUnits + p.shortUnits = 0 then none else some p
  | PosResp.notFound => none
  | PosResp.err => none

/-- Result dictionary of `close_all_positions`. -/
structure CloseResult where
  realized_pl : ℚ
  position_value : ℚ
deriving DecidableEq, Repr

/-- Source `close_all_positions()`: no current position means zero P/L and no close
request; a 404 on the close PUT also means zero P/L; any other close failure
re-raises (`Except.error`); on success the realized P/L is the sum of the
`pl` fields present on the long/short fill transactions. The second component
is the list of emitted side effects. -/
def close_all_positions (env : Env) : Except Unit CloseResult × List Event :=
  match get_current_position env with
  | none => (Except.ok ⟨0, 0⟩, [])
  | some pos =>
    match env.closeResp with
    | CloseResp.notFound => (Except.ok ⟨0, 0⟩, [Event.closeRequest])
    | CloseResp.err => (Except.error (), [Event.closeRequest])
    | CloseResp.ok lpl spl =>
        (Except.ok ⟨lpl.getD 0 + spl.getD 0, pos.unrealizedPL⟩, [Event.closeRequest])

/-- Source `get_current_price()`: mid price `(bid + ask) / 2` of the first quote's
first bid and first ask; any failure (HTTP error, empty arrays) re-raises. -/
def get_current_price (env : Env) : Except Unit ℚ :=
  match env.priceResp with
  | PriceResp.err => Except.error ()
  | PriceResp.ok [] => Except.error ()
  | PriceResp.ok (e :: _) =>
    match e.bids, e.asks with
    | b :: _, a :: _ => Except.ok ((b + a) / 2)
    | _, _ => Except.error ()

/-- Source `place_market_order(units)`: succeeds or raises according to the broker's
response. -/
def place_market_order (env : Env) : Except Unit Unit :=
  match env.orderResp with
  | OrderResp.ok => Except.ok ()
  | OrderResp.err => Except.error ()

/-- Successful result dictionary of `execute_trade`. -/
structure TradeResult where
  side : String
  units : ℤ
  entry_price : ℚ
  virtual_balance_before : ℚ
  realized_pl : ℚ
  virtual_balance_after : ℚ
deriving DecidableEq, Repr

/-- Failure modes of `execute_trade` as seen by the webhook handler:
the two `ValueError`s (caught as 400) and any re-raised broker exception
(caught as 500). -/
inductive TradeErr where
  | balanceTooLow (b : ℚ)
  | positionTooSmall (u : ℤ)
  | brokerError
deriving DecidableEq, Repr

/-- Source `execute_trade(side)`: load balance, close all positions, fold realized
P/L into the balance, persist it, enforce the minimum-balance and
minimum-size checks, then fetch the price, size and submit the order, and
journal the trade. Returns the result (or error) with the emitted events. -/
def execute_trade (env : Env) (side : String) : Except TradeErr TradeResult × List Event :=
  let bal := env.storedBalance
  match close_all_positions env with
  | (Except.error _, evs) => (Except.error TradeErr.brokerError, evs)
  | (Except.ok cr, evs) =>
    let newBal := bal + cr.realized_pl
    let evs2 := evs ++ [save_balance newBal]
    if newBal ≤ 100 then (Except.error (TradeErr.balanceTooLow newBal), evs2)
    else
      match get_current_price env with
      | Except.error _ => (Except.error TradeErr.brokerError, evs2)
      | Except.ok price =>
        let units := calculate_position_size newBal price side
        if units.natAbs < 100 then (Except.error (TradeErr.positionTooSmall units), evs2)
        else
          match place_market_order env with
          | Except.error _ =>
              (Except.error TradeErr.brokerError, evs2 ++ [Event.orderRequest units])
          | Except.ok _ =>
              (Except.ok ⟨side, units, price, bal, cr.realized_pl, newBal⟩,
               evs2 ++ [Event.orderRequest units, Event.logTrade])

/-- JSON-like values as far as the webhook's validation needs them. -/
inductive Json where
  | null : Json
  | str : String → Json
  | num : ℚ → Json
  | obj : List (String × Json) → Json

/-- Python exceptions that the validation expression can raise. -/
inductive PyErr where
  | keyError
  | typeError
  | attributeError
deriving DecidableEq, Repr

/-- Python subscript `j[k]`: `KeyError` for a missing key of a dict,
`TypeError` when subscripting a non-dict with a string key. -/
def getItem (j : Json) (k : String) : Except PyErr Json :=
  match j with
  | Json.obj fields =>
    match fields.lookup k with
    | some v => Except.ok v
    | none => Except.error PyErr.keyError
  | _ => Except.error PyErr.typeError

/-- ASCII uppercase of one character. -/
def asciiUpperChar (c : Char) : Char :=
  if 'a' ≤ c ∧ c ≤ 'z' then Char.ofNat (c.toNat - 32) else c

/-- Python `str.upper()` restricted to ASCII, which covers every payload the
claims mention. -/
def asciiUpper (s : String) : String := String.mk (s.data.map asciiUpperChar)

/-- Python `.upper()`: defined on `str`, `AttributeError` on anything else. -/
def pyUpper (j : Json) : Except PyErr String :=
  match j with
  | Json.str s => Except.ok (asciiUpper s)
  | _ => Except.error PyErr.attributeError

/-- How a validation failure surfaces from the webhook handler. -/
inductive VErr where
  | invalidPayload
  | invalidSide
  | serverError
deriving DecidableEq, Repr

/-- The validation block of `webhook()`:
`side = payload["strategy"]["order_action"].upper()` with
`except (KeyError, TypeError)` returning the 400 invalid-payload response;
a non-BUY/SELL string raises `ValueError("Invalid side")`, caught by
the outer `except ValueError` as a 400; an `AttributeError` (`.upper()` on a
non-string) is only caught by the generic handler, surfacing as a 500.
A malformed-JSON body becomes `{}` via `get_json(silent=True) or {}`. -/
def extractAction (payload : Json) : Except PyErr String :=
  match getItem payload "strategy" with
  | Except.error e => Except.error e
  | Except.ok s =>
    match getItem s "order_action" with
    | Except.error e => Except.error e
    | Except.ok a => pyUpper a

/-- Dispatch of the exceptions the validation expression can raise, together
with the BUY/SELL membership test. -/
def validateSignal (payload : Json) : Except VErr String :=
  match extractAction payload with
  | Except.error PyErr.keyError => Except.error VErr.invalidPayload
  | Except.error PyErr.typeError => Except.error VErr.invalidPayload
  | Except.error PyErr.attributeError => Except.error VErr.serverError
  | Except.ok side =>
    if side = "BUY" ∨ side = "SELL" then Except.ok side
    else Except.error VErr.invalidSide

/-- HTTP status of each validation failure. -/
def errStatus : VErr → Nat
  | VErr.invalidPayload => 400
  | VErr.invalidSide => 400
  | VErr.serverError => 500

/-- The `POST /` handler: validate, then run `execute_trade`; `ValueError`
(too-low balance, too-small position) maps to 400, any other exception to
500, success to 200. Returns the HTTP status with the emitted events. -/
def webhook (env : Env) (payload : Json) : Nat × List Event :=
  match validateSignal payload with
  | Except.error e => (errStatus e, [])
  | Except.ok side =>
    match execute_trade env side with
    | (Except.ok _, evs) => (200, evs)
    | (Except.error (TradeErr.balanceTooLow _), evs) => (400, evs)
    | (Except.error (TradeErr.positionTooSmall _), evs) => (400, evs)
    | (Except.error TradeErr.brokerError, evs) => (500, evs)

/-! ### Concrete inputs used by counterexamples and witnesses -/

/-- Nested TradingView payload carrying a lowercase buy action. -/
def nestedBuyPayload : Json :=
  Json.obj [("strategy", Json.obj [("order_action", Json.str "buy")])]

/-- The flat `{signal, symbol}` payload shape described by the spec. -/
def flatPayload : Json :=
  Json.obj [("signal", Json.str "BUY"), ("symbol", Json.str "EUR_USD")]

/-- Broker state with a long position of +500 units, a close that realizes
+25, mid price 5/4 and a successful order. -/
def envLong : Env :=
  { storedBalance := 1000
    positionResp := PosResp.ok ⟨500, 0, 25⟩
    closeResp := CloseResp.ok (some 25) none
    priceResp := PriceResp.ok [⟨[5/4], [5/4]⟩]
    orderResp := OrderResp.ok }

/-- Broker state where the position query itself fails with a broker error. -/
def envPosErr : Env :=
  { storedBalance := 1000
    positionResp := PosResp.err
    closeResp := CloseResp.err
    priceResp := PriceResp.ok [⟨[1], [1]⟩]
    orderResp := OrderResp.ok }

/-- Broker state where the close of a long position loses 80, driving the
virtual balance of 50 below zero. -/
def envLosingClose : Env :=
  { storedBalance := 50
    positionResp := PosResp.ok ⟨300, 0, -80⟩
    closeResp := CloseResp.ok (some (-80)) none
    priceResp := PriceResp.ok [⟨[1], [1]⟩]
    orderResp := OrderResp.ok }

/-- Broker state with an open position whose close request fails. -/
def envCloseErr : Env :=
  { storedBalance := 1000
    positionResp := PosResp.ok ⟨500, 0, 25⟩
    closeResp := CloseResp.err
    priceResp := PriceResp.ok [⟨[1], [1]⟩]
    orderResp := OrderResp.ok }

/-- Broker state with no open position (404 on the position query). -/
def envNoPosition : Env :=
  { storedBalance := 1000
    positionResp := PosResp.notFound
    closeResp := CloseResp.ok none none
    priceResp := PriceResp.ok [⟨[1], [1]⟩]
    orderResp := OrderResp.ok }

/-! ### Helper lemmas -/

/-- Truncation toward zero is floor on nonnegative arguments and ceiling on
negative ones. -/
theorem truncTowardZero_eq (q : ℚ) :
    truncTowardZero q = if 0 ≤ q then ⌊q⌋ else ⌈q⌉ := by
  unfold truncTowardZero
  split
  case isTrue h =>
    rw [Rat.floor_def]
    exact Int.tdiv_eq_ediv (Rat.num_nonneg.mpr h) (Int.ofNat_nonneg _)
  case isFalse h =>
    have hq : q < 0 := not_le.mp h
    have hnum : (0 : ℤ) ≤ -q.num := by
      have := Rat.num_neg.mpr hq
      omega
    have hden : (0 : ℤ) ≤ (q.den : ℤ) := Int.ofNat_nonneg _
    have h1 : q.num.tdiv q.den = -((-q.num).tdiv q.den) := by
      rw [Int.neg_tdiv, neg_neg]
    have h2 : (-q.num).tdiv q.den = ⌊-q⌋ := by
      rw [Int.tdiv_eq_ediv hnum hden, Rat.floor_def]
      simp
    rw [h1, h2, Int.floor_neg, neg_neg]

/-- Truncation toward zero is monotone. -/
theorem truncTowardZero_mono {q₁ q₂ : ℚ} (h : q₁ ≤ q₂) :
    truncTowardZero q₁ ≤ truncTowardZero q₂ := by
  rw [truncTowardZero_eq, truncTowardZero_eq]
  by_cases h1 : 0 ≤ q₁ <;> by_cases h2 : 0 ≤ q₂ <;> simp [h1, h2]
  · exact Int.floor_le_floor h
  · exact absurd (le_trans h1 h) h2
  · have : ⌈q₁⌉ ≤ 0 := by
      have h0 : ⌈q₁⌉ ≤ ⌈(0 : ℚ)⌉ := Int.ceil_le_ceil (le_of_lt (not_le.mp h1))
      simpa using h0
    have : (0 : ℤ) ≤ ⌊q₂⌋ := Int.floor_nonneg.mpr h2
    omega
  · exact Int.ceil_le_ceil h

/-- On a nonnegative argument truncation toward zero is the floor. -/
theorem truncTowardZero_of_nonneg {q : ℚ} (h : 0 ≤ q) :
    truncTowardZero q = ⌊q⌋ := by
  rw [truncTowardZero_eq, if_pos h]

/-- Lemma: `close_all_positions` performs at most one broker mutation: the close
request when a position is open. -/
theorem close_events (env : Env) :
    (close_all_positions env).2 = [] ∨
      (close_all_positions env).2 = [Event.closeRequest] := by
  cases hp : get_current_position env with
  | none => simp [close_all_positions, hp]
  | some p => cases hcr : env.closeResp <;> simp [close_all_positions, hp, hcr]

/-- The close-request event is never an order or a ledger write. -/
theorem no_order_in_close (env : Env) (u : ℤ) :
    Event.orderRequest u ∉ (close_all_positions env).2 := by
  rcases close_events env with h | h <;> simp [h]

/-- The close step never writes the ledger. -/
theorem no_save_in_close (env : Env) (b : ℚ) :
    Event.saveBalance b ∉ (close_all_positions env).2 := by
  rcases close_events env with h | h <;> simp [h]

/-- The events of `execute_trade` always start with the close step's events. -/
theorem trace_starts_with_close (env : Env) (side : String) :
    ∃ rest, (execute_trade env side).2 = (close_all_positions env).2 ++ rest := by
  rcases hcl : close_all_positions env with ⟨res, evs⟩
  cases res with
  | error e => exact ⟨[], by simp [execute_trade, hcl]⟩
  | ok cr =>
    by_cases hb : env.storedBalance + cr.realized_pl ≤ 100
    · exact ⟨[save_balance (env.storedBalance + cr.realized_pl)], by simp [execute_trade, hcl, hb]⟩
    · cases hpr : get_current_price env with
      | error e =>
          exact ⟨[save_balance (env.storedBalance + cr.realized_pl)],
            by simp [execute_trade, hcl, hb, hpr]⟩
      | ok price =>
          by_cases hsz : (calculate_position_size (env.storedBalance + cr.realized_pl) price
              side).natAbs < 100
          · exact ⟨[save_balance (env.storedBalance + cr.realized_pl)],
              by simp [execute_trade, hcl, hb, hpr, hsz]⟩
          · cases hor : env.orderResp with
            | err =>
                exact ⟨[save_balance (env.storedBalance + cr.realized_pl),
                    Event.orderRequest (calculate_position_size
                      (env.storedBalance + cr.realized_pl) price side)],
                  by simp [execute_trade, place_market_order, hcl, hb, hpr, hsz, hor]⟩
            | ok =>
                exact ⟨[save_balance (env.storedBalance + cr.realized_pl),
                    Event.orderRequest (calculate_position_size
                      (env.storedBalance + cr.realized_pl) price side),
                    Event.logTrade],
                  by simp [execute_trade, place_market_order, hcl, hb, hpr, hsz, hor]⟩

/-- A failing close aborts `execute_trade` with only the close request
performed: no ledger write, no order. -/
theorem close_error_trace (env : Env) (side : String)
    (h : (close_all_positions env).1 = Except.error ()) :
    execute_trade env side = (Except.error TradeErr.brokerError, (close_all_positions env).2) := by
  rcases hcl : close_all_positions env with ⟨res, evs⟩
  rw [hcl] at h
  cases res with
  | error e => simp [execute_trade, hcl]
  | ok cr => simp at h

/-- Whenever the close step succeeds, the post-close balance is written to the
ledger (whatever happens afterwards). -/
theorem save_mem_of_close_ok (env : Env) (side : String) (cr : CloseResult)
    (h : (close_all_positions env).1 = Except.ok cr) :
    save_balance (env.storedBalance + cr.realized_pl) ∈ (execute_trade env side).2 := by
  rcases hcl : close_all_positions env with ⟨res, evs⟩
  rw [hcl] at h
  cases res with
  | error e => simp at h
  | ok cr2 =>
    rw [show cr2 = cr from by simpa using h] at hcl
    by_cases hb : env.storedBalance + cr.realized_pl ≤ 100
    · simp [execute_trade, hcl, hb]
    · cases hpr : get_current_price env with
      | error e => simp [execute_trade, hcl, hb, hpr]
      | ok price =>
          by_cases hsz : (calculate_position_size (env.storedBalance + cr.realized_pl) price
              side).natAbs < 100
          · simp [execute_trade, hcl, hb, hpr, hsz]
          · cases hor : env.orderResp with
            | err => simp [execute_trade, place_market_order, hcl, hb, hpr, hsz, hor]
            | ok => simp [execute_trade, place_market_order, hcl, hb, hpr, hsz, hor]

/-- Anatomy of a request that reaches the order-submission call: the close
step succeeded, the price was fetched, the submitted units were computed from
the post-close balance at that price, and the ledger write precedes the order
request in the event sequence. -/
theorem order_event_spec (env : Env) (side : String) (u : ℤ)
    (h : Event.orderRequest u ∈ (execute_trade env side).2) :
    ∃ cr price rest,
      (close_all_positions env).1 = Except.ok cr ∧
      get_current_price env = Except.ok price ∧
      u = calculate_position_size (env.storedBalance + cr.realized_pl) price side ∧
      (execute_trade env side).2 =
        (close_all_positions env).2 ++
          save_balance (env.storedBalance + cr.realized_pl) :: rest ∧
      Event.orderRequest u ∈ rest := by
  rcases hcl : close_all_positions env with ⟨res, evs⟩
  have hno : Event.orderRequest u ∉ evs := by
    have := no_order_in_close env u
    rw [hcl] at this
    exact this
  cases res with
  | error e =>
      rw [close_error_trace env side (by rw [hcl])] at h
      rw [hcl] at h
      exact absurd h hno
  | ok cr =>
    by_cases hb : env.storedBalance + cr.realized_pl ≤ 100
    · rw [show (execute_trade env side).2 = evs ++ [save_balance (env.storedBalance + cr.realized_pl)]
          from by simp [execute_trade, hcl, hb]] at h
      simp [save_balance] at h
      exact absurd h hno
    · cases hpr : get_current_price env with
      | error e =>
          rw [show (execute_trade env side).2 =
                evs ++ [save_balance (env.storedBalance + cr.realized_pl)]
              from by simp [execute_trade, hcl, hb, hpr]] at h
          simp [save_balance] at h
          exact absurd h hno
      | ok price =>
          by_cases hsz : (calculate_position_size (env.storedBalance + cr.realized_pl) price
              side).natAbs < 100
          · rw [show (execute_trade env side).2 =
                  evs ++ [save_balance (env.storedBalance + cr.realized_pl)]
                from by simp [execute_trade, hcl, hb, hpr, hsz]] at h
            simp [save_balance] at h
            exact absurd h hno
          · cases hor : env.orderResp with
            | err =>
                have htr : (execute_trade env side).2 =
                    evs ++ save_balance (env.storedBalance + cr.realized_pl) ::
                      [Event.orderRequest (calculate_position_size
                        (env.storedBalance + cr.realized_pl) price side)] := by
                  simp [execute_trade, place_market_order, hcl, hb, hpr, hsz, hor]
                rw [htr] at h
                simp [save_balance] at h
                rcases h with h | h
                · exact absurd h hno
                · exact ⟨cr, price, _, rfl, rfl, h, htr, by simp [h]⟩
            | ok =>
                have htr : (execute_trade env side).2 =
                    evs ++ save_balance (env.storedBalance + cr.realized_pl) ::
                      [Event.orderRequest (calculate_position_size
                        (env.storedBalance + cr.realized_pl) price side),
                       Event.logTrade] := by
                  simp [execute_trade, place_market_order, hcl, hb, hpr, hsz, hor]
                rw [htr] at h
                simp [save_balance] at h
                rcases h with h | h
                · exact absurd h hno
                · exact ⟨cr, price, _, rfl, rfl, h, htr, by simp [h]⟩

/-- A validated request hands its events through unchanged, and either
`ValueError` of `execute_trade` surfaces as HTTP 400. -/
theorem webhook_of_valid (env : Env) (payload : Json) (side : String)
    (hv : validateSignal payload = Except.ok side) :
    (webhook env payload).2 = (execute_trade env side).2 ∧
    (∀ b, (execute_trade env side).1 = Except.error (TradeErr.balanceTooLow b) →
      (webhook env payload).1 = 400) ∧
    (∀ u, (execute_trade env side).1 = Except.error (TradeErr.positionTooSmall u) →
      (webhook env payload).1 = 400) := by
  rcases hex : execute_trade env side with ⟨res, evs⟩
  cases res with
  | ok r =>
      refine ⟨by simp [webhook, hv, hex], ?_, ?_⟩ <;> intro x hx <;> simp at hx
  | error e =>
    cases e with
    | balanceTooLow b =>
        refine ⟨by simp [webhook, hv, hex], fun x hx => by simp [webhook, hv, hex], ?_⟩
        intro x hx
        simp at hx
    | positionTooSmall u =>
        refine ⟨by simp [webhook, hv, hex], ?_, fun x hx => by simp [webhook, hv, hex]⟩
        intro x hx
        simp at hx
    | brokerError =>
        refine ⟨by simp [webhook, hv, hex], ?_, ?_⟩ <;> intro x hx <;> simp at hx

/-- When the post-close balance fails the minimum-balance check, the request
stops with the `ValueError`, after the ledger write but with no further
broker interaction. -/
theorem low_balance_trace (env : Env) (side : String) (cr : CloseResult)
    (hc : (close_all_positions env).1 = Except.ok cr)
    (hb : env.storedBalance + cr.realized_pl ≤ 100) :
    execute_trade env side =
      (Except.error (TradeErr.balanceTooLow (env.storedBalance + cr.realized_pl)),
       (close_all_positions env).2 ++ [save_balance (env.storedBalance + cr.realized_pl)]) := by
  rcases hcl : close_all_positions env with ⟨res, evs⟩
  rw [hcl] at hc
  cases res with
  | error e => simp at hc
  | ok cr2 =>
    rw [show cr2 = cr from by simpa using hc] at hcl
    simp [execute_trade, hcl, hb]

/-! ### Evaluation of the concrete scenarios -/

/-- Long-position scenario evaluated end to end. -/
theorem envLong_eval :
    execute_trade envLong "BUY" =
      (Except.ok ⟨"BUY", 41000, 5/4, 1000, 25, 1025⟩,
       [Event.closeRequest, Event.saveBalance 1025, Event.orderRequest 41000,
        Event.logTrade]) := by
  norm_num [execute_trade, close_all_positions, get_current_position, get_current_price,
    place_market_order, save_balance, quantize2, calculate_position_size,
    truncTowardZero_eq, LEVERAGE, envLong]
  simp

/-- Broker-error-on-position-query scenario evaluated end to end. -/
theorem envPosErr_eval :
    execute_trade envPosErr "BUY" =
      (Except.ok ⟨"BUY", 50000, 1, 1000, 0, 1000⟩,
       [Event.saveBalance 1000, Event.orderRequest 50000, Event.logTrade]) := by
  norm_num [execute_trade, close_all_positions, get_current_position, get_current_price,
    place_market_order, save_balance, quantize2, calculate_position_size,
    truncTowardZero_eq, LEVERAGE, envPosErr]
  simp

/-- Losing-close scenario: the close step's evaluation. -/
theorem envLosingClose_close :
    close_all_positions envLosingClose =
      (Except.ok ⟨-80, -80⟩, [Event.closeRequest]) := by
  norm_num [close_all_positions, get_current_position, envLosingClose]

/-- Losing-close scenario evaluated end to end: the balance goes negative and
the request is rejected after the ledger write. -/
theorem envLosingClose_eval :
    execute_trade envLosingClose "BUY" =
      (Except.error (TradeErr.balanceTooLow (-30)),
       [Event.closeRequest, Event.saveBalance (-30)]) := by
  norm_num [execute_trade, close_all_positions, get_current_position, get_current_price,
    place_market_order, save_balance, quantize2, calculate_position_size,
    truncTowardZero_eq, LEVERAGE, envLosingClose]
  rw [show ((-3000 : ℚ)) = ((-3000 : ℤ) : ℚ) from by norm_num, Int.ceil_intCast]
  norm_num

/-- The nested lowercase-buy payload validates to BUY. -/
theorem nested_buy_ok : validateSignal nestedBuyPayload = Except.ok "BUY" := by
  simp [validateSignal, extractAction, nestedBuyPayload, getItem, pyUpper, List.lookup,
    show asciiUpper "buy" = "BUY" from rfl]

/-- The long-position broker state reports an open position. -/
theorem envLong_pos : get_current_position envLong = some ⟨500, 0, 25⟩ := by
  norm_num [get_current_position, envLong]

/-- In the losing-close scenario the post-close balance is nonpositive. -/
theorem envLosingClose_balance :
    envLosingClose.storedBalance + (CloseResult.mk (-80) (-80)).realized_pl ≤ 0 := by
  norm_num [envLosingClose]

/-- The failing-close broker state reports an open position. -/
theorem envCloseErr_pos : get_current_position envCloseErr = some ⟨500, 0, 25⟩ := by
  norm_num [get_current_position, envCloseErr]

/-! ### Claim theorems -/

/-- Claim C1, counterexample: with the broker long 500 units and desired side
BUY, `execute_trade` does not short-circuit: it issues the close request and a
new order (two broker mutations) and writes a changed balance 1025 ≠ 1000 to
the ledger, contradicting the claimed no-op. -/
theorem buy_while_long_not_noop :
    envLong.positionResp = PosResp.ok ⟨500, 0, 25⟩ ∧
    envLong.storedBalance = 1000 ∧
    Event.closeRequest ∈ (execute_trade envLong "BUY").2 ∧
    Event.orderRequest 41000 ∈ (execute_trade envLong "BUY").2 ∧
    Event.saveBalance 1025 ∈ (execute_trade envLong "BUY").2 ∧
    (1025 : ℚ) ≠ 1000 := by
  refine ⟨rfl, rfl, ?_, ?_, ?_, by norm_num⟩ <;> simp [envLong_eval]

/-- Claim C1, amended: when the broker reports any open position and the
desired side is BUY, the code always issues the close request (unconditional
close, no direction-aware short-circuit), and when the close succeeds it
persists the balance updated with the close's realized P/L and proceeds
toward a new order. -/
theorem buy_while_long_always_closes (env : Env) (p : PositionData)
    (hp : get_current_position env = some p) :
    Event.closeRequest ∈ (execute_trade env "BUY").2 ∧
    ∀ lpl spl, env.closeResp = CloseResp.ok lpl spl →
      save_balance (env.storedBalance + (lpl.getD 0 + spl.getD 0)) ∈
        (execute_trade env "BUY").2 := by
  have hevs : (close_all_positions env).2 = [Event.closeRequest] := by
    cases hcr : env.closeResp <;> simp [close_all_positions, hp, hcr]
  constructor
  · obtain ⟨rest, hrest⟩ := trace_starts_with_close env "BUY"
    rw [hrest, hevs]
    simp
  · intro lpl spl hcr
    have hclose : (close_all_positions env).1 =
        Except.ok ⟨lpl.getD 0 + spl.getD 0, p.unrealizedPL⟩ := by
      simp [close_all_positions, hp, hcr]
    exact save_mem_of_close_ok env "BUY" _ hclose

/-- Claim C1, witness for the amended theorem at the long-position scenario. -/
theorem buy_while_long_always_closes_witness :
    get_current_position envLong = some ⟨500, 0, 25⟩ ∧
    (Event.closeRequest ∈ (execute_trade envLong "BUY").2 ∧
     ∀ lpl spl, envLong.closeResp = CloseResp.ok lpl spl →
       save_balance (envLong.storedBalance + (lpl.getD 0 + spl.getD 0)) ∈
         (execute_trade envLong "BUY").2) :=
  ⟨envLong_pos, buy_while_long_always_closes envLong ⟨500, 0, 25⟩ envLong_pos⟩

/-- Claim C2: for positive balance and price the sizer returns
`⌊balance * LEVERAGE / price⌋` (truncation, never rounding up: the result is
at most the raw quotient), negated for SELL; at balance 1000, price 1.10, BUY
it returns 45454 units. -/
theorem sizer_truncates (b p : ℚ) (hb : 0 < b) (hp : 0 < p) :
    calculate_position_size b p "BUY" = ⌊b * LEVERAGE / p⌋ ∧
    calculate_position_size b p "SELL" = -⌊b * LEVERAGE / p⌋ ∧
    ((⌊b * LEVERAGE / p⌋ : ℚ) ≤ b * LEVERAGE / p) ∧
    calculate_position_size 1000 (11/10) "BUY" = 45454 := by
  have hL : (0 : ℚ) < LEVERAGE := by norm_num [LEVERAGE]
  have h0 : (0 : ℚ) ≤ b * LEVERAGE / p := by positivity
  refine ⟨?_, ?_, Int.floor_le _, ?_⟩
  · simp [calculate_position_size, truncTowardZero_of_nonneg h0]
  · simp [calculate_position_size, truncTowardZero_of_nonneg h0]
  · norm_num [calculate_position_size, truncTowardZero_eq, LEVERAGE]
    simp

/-- Claim C2, witness at balance 1000 and price 2. -/
theorem sizer_truncates_witness :
    (0 : ℚ) < 1000 ∧ (0 : ℚ) < 2 ∧
    (calculate_position_size 1000 2 "BUY" = ⌊(1000 : ℚ) * LEVERAGE / 2⌋ ∧
     calculate_position_size 1000 2 "SELL" = -⌊(1000 : ℚ) * LEVERAGE / 2⌋ ∧
     ((⌊(1000 : ℚ) * LEVERAGE / 2⌋ : ℚ) ≤ 1000 * LEVERAGE / 2) ∧
     calculate_position_size 1000 (11/10) "BUY" = 45454) :=
  ⟨by decide, by decide, sizer_truncates 1000 2 (by decide) (by decide)⟩

/-- Claim C3: whenever the order-submission call happens (whatever its
outcome), the close step succeeded, the post-close balance
`storedBalance + realized_pl` was written to the ledger strictly earlier in
the event sequence, and exactly that balance was used to size the submitted
units. -/
theorem commit_before_order (env : Env) (side : String) (u : ℤ)
    (h : Event.orderRequest u ∈ (execute_trade env side).2) :
    ∃ cr price rest,
      (close_all_positions env).1 = Except.ok cr ∧
      get_current_price env = Except.ok price ∧
      u = calculate_position_size (env.storedBalance + cr.realized_pl) price side ∧
      (execute_trade env side).2 =
        (close_all_positions env).2 ++
          save_balance (env.storedBalance + cr.realized_pl) :: rest ∧
      Event.orderRequest u ∈ rest :=
  order_event_spec env side u h

/-- Claim C3, witness at the long-position scenario. -/
theorem commit_before_order_witness :
    Event.orderRequest 41000 ∈ (execute_trade envLong "BUY").2 ∧
    (∃ cr price rest,
      (close_all_positions envLong).1 = Except.ok cr ∧
      get_current_price envLong = Except.ok price ∧
      (41000 : ℤ) =
        calculate_position_size (envLong.storedBalance + cr.realized_pl) price "BUY" ∧
      (execute_trade envLong "BUY").2 =
        (close_all_positions envLong).2 ++
          save_balance (envLong.storedBalance + cr.realized_pl) :: rest ∧
      Event.orderRequest 41000 ∈ rest) :=
  ⟨by simp [envLong_eval],
   commit_before_order envLong "BUY" 41000 (by simp [envLong_eval])⟩

/-- Claim C4, counterexample: the flat `{signal, symbol}` payload shape,
which the claim says the validator accepts, is rejected — it hits the
`KeyError` on `payload["strategy"]` and the request answers 400 with no side
effects. -/
theorem flat_shape_rejected :
    validateSignal flatPayload = Except.error VErr.invalidPayload ∧
    webhook envLong flatPayload = (400, []) := by
  constructor
  · simp [validateSignal, extractAction, flatPayload, getItem, pyUpper, List.lookup]
  · simp [webhook, validateSignal, extractAction, flatPayload, getItem, pyUpper,
      List.lookup, errStatus]

/-- Claim C4, amended: the validator accepts only the nested
`{strategy:{order_action}}` shape, uppercasing a string action and accepting
exactly BUY/SELL; the flat `{signal, symbol}` shape and a missing action
(including malformed JSON, which becomes `{}`) are rejected with HTTP 400; a
non-BUY/SELL string action is rejected with HTTP 400; a non-string action
value raises `AttributeError` and surfaces as HTTP 500, not 400; validation
failures cause no side effects. -/
theorem validator_nested_shape_only (env : Env) (s : String) (payload : Json) :
    (validateSignal (Json.obj [("strategy", Json.obj [("order_action", Json.str s)])]) =
      if asciiUpper s = "BUY" ∨ asciiUpper s = "SELL" then Except.ok (asciiUpper s)
      else Except.error VErr.invalidSide) ∧
    validateSignal flatPayload = Except.error VErr.invalidPayload ∧
    validateSignal (Json.obj []) = Except.error VErr.invalidPayload ∧
    validateSignal (Json.obj [("strategy", Json.obj [("order_action", Json.num 5)])]) =
      Except.error VErr.serverError ∧
    errStatus VErr.invalidPayload = 400 ∧
    errStatus VErr.invalidSide = 400 ∧
    errStatus VErr.serverError = 500 ∧
    (∀ e, validateSignal payload = Except.error e → (webhook env payload).2 = []) := by
  refine ⟨?_, ?_, ?_, ?_, rfl, rfl, rfl, ?_⟩
  · simp [validateSignal, extractAction, getItem, pyUpper, List.lookup]
  · simp [validateSignal, extractAction, flatPayload, getItem, pyUpper, List.lookup]
  · simp [validateSignal, extractAction, getItem]
  · simp [validateSignal, extractAction, getItem, pyUpper, List.lookup]
  · intro e he
    simp [webhook, he]

/-- Claim C4, witness for the amended theorem. -/
theorem validator_nested_shape_only_witness :
    (validateSignal (Json.obj [("strategy", Json.obj [("order_action", Json.str "buy")])]) =
      if asciiUpper "buy" = "BUY" ∨ asciiUpper "buy" = "SELL" then Except.ok (asciiUpper "buy")
      else Except.error VErr.invalidSide) ∧
    validateSignal flatPayload = Except.error VErr.invalidPayload ∧
    validateSignal (Json.obj []) = Except.error VErr.invalidPayload ∧
    validateSignal (Json.obj [("strategy", Json.obj [("order_action", Json.num 5)])]) =
      Except.error VErr.serverError ∧
    errStatus VErr.invalidPayload = 400 ∧
    errStatus VErr.invalidSide = 400 ∧
    errStatus VErr.serverError = 500 ∧
    (∀ e, validateSignal flatPayload = Except.error e →
      (webhook envLong flatPayload).2 = []) :=
  validator_nested_shape_only envLong "buy" flatPayload

/-- Claim C5: once the close has succeeded, if the post-close balance is at
most zero then the request answers HTTP 400 and no order request is ever
submitted to the broker. -/
theorem insufficient_balance_no_order (env : Env) (payload : Json) (side : String)
    (cr : CloseResult)
    (hv : validateSignal payload = Except.ok side)
    (hc : (close_all_positions env).1 = Except.ok cr)
    (hb : env.storedBalance + cr.realized_pl ≤ 0) :
    (webhook env payload).1 = 400 ∧
    ∀ u, Event.orderRequest u ∉ (webhook env payload).2 := by
  obtain ⟨htr, h400b, _⟩ := webhook_of_valid env payload side hv
  have hex := low_balance_trace env side cr hc (le_trans hb (by norm_num))
  constructor
  · exact h400b _ (by rw [hex])
  · intro u hmem
    rw [htr, hex] at hmem
    simp [save_balance] at hmem
    exact no_order_in_close env u hmem

/-- Claim C5, witness at the losing-close scenario. -/
theorem insufficient_balance_no_order_witness :
    validateSignal nestedBuyPayload = Except.ok "BUY" ∧
    (close_all_positions envLosingClose).1 = Except.ok ⟨-80, -80⟩ ∧
    envLosingClose.storedBalance + (CloseResult.mk (-80) (-80)).realized_pl ≤ 0 ∧
    ((webhook envLosingClose nestedBuyPayload).1 = 400 ∧
     ∀ u, Event.orderRequest u ∉ (webhook envLosingClose nestedBuyPayload).2) :=
  ⟨nested_buy_ok, by rw [envLosingClose_close], envLosingClose_balance,
   insufficient_balance_no_order envLosingClose nestedBuyPayload "BUY" ⟨-80, -80⟩
     nested_buy_ok (by rw [envLosingClose_close]) envLosingClose_balance⟩

/-- Claim C6: whenever the broker reports no open position — a 404 on the
position query or on the close request — the close step succeeds with
realized P/L exactly zero instead of failing. -/
theorem close_404_zero_pl (env : Env)
    (h : env.positionResp = PosResp.notFound ∨ env.closeResp = CloseResp.notFound) :
    ∃ cr, (close_all_positions env).1 = Except.ok cr ∧ cr.realized_pl = 0 := by
  rcases h with h | h
  · exact ⟨⟨0, 0⟩, by simp [close_all_positions, get_current_position, h], rfl⟩
  · cases hp : get_current_position env with
    | none => exact ⟨⟨0, 0⟩, by simp [close_all_positions, hp], rfl⟩
    | some p => exact ⟨⟨0, 0⟩, by simp [close_all_positions, hp, h], rfl⟩

/-- Claim C6, witness at the no-position scenario. -/
theorem close_404_zero_pl_witness :
    (envNoPosition.positionResp = PosResp.notFound ∨
      envNoPosition.closeResp = CloseResp.notFound) ∧
    ∃ cr, (close_all_positions envNoPosition).1 = Except.ok cr ∧ cr.realized_pl = 0 :=
  ⟨Or.inl rfl, close_404_zero_pl envNoPosition (Or.inl rfl)⟩

/-- Claim C7, counterexample: when the position query itself fails with a
broker error, `get_current_position` swallows the exception and the request
does not abort — it writes the ledger and even submits a new order,
contradicting the claimed abort-before-ledger for query failures. -/
theorem position_query_error_swallowed :
    envPosErr.positionResp = PosResp.err ∧
    execute_trade envPosErr "BUY" =
      (Except.ok ⟨"BUY", 50000, 1, 1000, 0, 1000⟩,
       [Event.saveBalance 1000, Event.orderRequest 50000, Event.logTrade]) :=
  ⟨rfl, envPosErr_eval⟩

/-- Claim C7, amended: a broker error while closing an open position aborts
the request before the ledger is written (the only side effect is the close
attempt); a broker error on the position query, however, is swallowed and
treated as "no open position", so the request proceeds. -/
theorem close_error_aborts_before_ledger (env env2 : Env) (side : String)
    (p : PositionData)
    (hp : get_current_position env = some p) (hc : env.closeResp = CloseResp.err)
    (h2 : env2.positionResp = PosResp.err) :
    execute_trade env side = (Except.error TradeErr.brokerError, [Event.closeRequest]) ∧
    (∀ b, Event.saveBalance b ∉ (execute_trade env side).2) ∧
    get_current_position env2 = none := by
  have hcl : close_all_positions env = (Except.error (), [Event.closeRequest]) := by
    simp [close_all_positions, hp, hc]
  have hex : execute_trade env side =
      (Except.error TradeErr.brokerError, [Event.closeRequest]) := by
    have h3 := close_error_trace env side (by rw [hcl])
    rw [hcl] at h3
    simpa using h3
  refine ⟨hex, ?_, by simp [get_current_position, h2]⟩
  intro b
  rw [hex]
  simp

/-- Claim C7, witness for the amended theorem. -/
theorem close_error_aborts_before_ledger_witness :
    get_current_position envCloseErr = some ⟨500, 0, 25⟩ ∧
    envCloseErr.closeResp = CloseResp.err ∧
    envPosErr.positionResp = PosResp.err ∧
    (execute_trade envCloseErr "BUY" =
       (Except.error TradeErr.brokerError, [Event.closeRequest]) ∧
     (∀ b, Event.saveBalance b ∉ (execute_trade envCloseErr "BUY").2) ∧
     get_current_position envPosErr = none) :=
  ⟨envCloseErr_pos, rfl, rfl,
   close_error_aborts_before_ledger envCloseErr envPosErr "BUY" ⟨500, 0, 25⟩
     envCloseErr_pos rfl rfl⟩

/-- Claim C8, counterexample: for side SELL the signed unit count is not
monotone in the balance — at price 1, balance 1 yields −50 and balance 2
yields −100, so a larger balance gives a strictly smaller signed size. -/
theorem sell_sizing_not_monotone :
    (1 : ℚ) ≤ 2 ∧
    calculate_position_size 1 1 "SELL" = -50 ∧
    calculate_position_size 2 1 "SELL" = -100 ∧
    ¬(calculate_position_size 1 1 "SELL" ≤ calculate_position_size 2 1 "SELL") := by
  have h1 : calculate_position_size 1 1 "SELL" = -50 := by
    norm_num [calculate_position_size, truncTowardZero_eq, LEVERAGE]
  have h2 : calculate_position_size 2 1 "SELL" = -100 := by
    norm_num [calculate_position_size, truncTowardZero_eq, LEVERAGE]
  refine ⟨by norm_num, h1, h2, ?_⟩
  rw [h1, h2]
  norm_num

/-- Claim C8, amended: for fixed price and leverage the sizer is monotone
nondecreasing in the balance for BUY, and monotone nonincreasing (the
magnitude is nondecreasing) for SELL. -/
theorem sizer_monotone_buy_antitone_sell (b1 b2 p : ℚ) (hp : 0 < p) (h : b1 ≤ b2) :
    calculate_position_size b1 p "BUY" ≤ calculate_position_size b2 p "BUY" ∧
    calculate_position_size b2 p "SELL" ≤ calculate_position_size b1 p "SELL" := by
  have key : truncTowardZero (b1 * LEVERAGE / p) ≤ truncTowardZero (b2 * LEVERAGE / p) := by
    apply truncTowardZero_mono
    apply (div_le_div_iff_of_pos_right hp).mpr
    exact mul_le_mul_of_nonneg_right h (by norm_num [LEVERAGE])
  constructor
  · simpa [calculate_position_size] using key
  · simpa [calculate_position_size] using neg_le_neg key

/-- Claim C8, witness for the amended theorem at balances 1 ≤ 2 and price 1. -/
theorem sizer_monotone_buy_antitone_sell_witness :
    (0 : ℚ) < 1 ∧ (1 : ℚ) ≤ 2 ∧
    (calculate_position_size 1 1 "BUY" ≤ calculate_position_size 2 1 "BUY" ∧
     calculate_position_size 2 1 "SELL" ≤ calculate_position_size 1 1 "SELL") :=
  ⟨by decide, by decide, sizer_monotone_buy_antitone_sell 1 2 1 (by decide) (by decide)⟩

/-- Claim C9: the price used for sizing is the mid price `(bid + ask) / 2` of
the first quote's first bid and ask — when bid and ask differ it equals
neither raw price — and any submitted order's units were computed at exactly
that mid price. -/
theorem mid_price_sizing (env : Env) (b a : ℚ) (bs aks : List ℚ)
    (rest : List PriceEntry)
    (h : env.priceResp = PriceResp.ok ({ bids := b :: bs, asks := a :: aks } :: rest)) :
    get_current_price env = Except.ok ((b + a) / 2) ∧
    (b ≠ a → (b + a) / 2 ≠ b ∧ (b + a) / 2 ≠ a) ∧
    (∀ side u, Event.orderRequest u ∈ (execute_trade env side).2 →
      ∃ cr, (close_all_positions env).1 = Except.ok cr ∧
        u = calculate_position_size (env.storedBalance + cr.realized_pl)
              ((b + a) / 2) side) := by
  have hpr : get_current_price env = Except.ok ((b + a) / 2) := by
    simp [get_current_price, h]
  refine ⟨hpr, ?_, ?_⟩
  · intro hne
    constructor
    · intro hcontra
      apply hne
      field_simp at hcontra
      linarith
    · intro hcontra
      apply hne
      field_simp at hcontra
      linarith
  · intro side u hu
    obtain ⟨cr, price, rest2, hc, hp2, hu2, _, _⟩ := order_event_spec env side u hu
    have hpe : price = (b + a) / 2 := by
      rw [hpr] at hp2
      simpa using hp2.symm
    exact ⟨cr, hc, by rw [hu2, hpe]⟩

/-- Claim C9, witness at the long-position scenario (bid = ask = 5/4). -/
theorem mid_price_sizing_witness :
    envLong.priceResp =
      PriceResp.ok ({ bids := [5/4], asks := [5/4] } :: ([] : List PriceEntry)) ∧
    (get_current_price envLong = Except.ok ((5/4 + 5/4) / 2) ∧
     ((5/4 : ℚ) ≠ 5/4 → (5/4 + 5/4 : ℚ) / 2 ≠ 5/4 ∧ (5/4 + 5/4 : ℚ) / 2 ≠ 5/4) ∧
     (∀ side u, Event.orderRequest u ∈ (execute_trade envLong side).2 →
       ∃ cr, (close_all_positions envLong).1 = Except.ok cr ∧
         u = calculate_position_size (envLong.storedBalance + cr.realized_pl)
               ((5/4 + 5/4) / 2) side)) :=
  ⟨rfl, mid_price_sizing envLong (5/4) (5/4) [] [] [] rfl⟩

/-- Claim C10: when a validated request is rejected with the too-low-balance
or too-small-position `ValueError` (HTTP 400), the close had succeeded and
the post-close balance had already been written to the ledger — the
rejection does not roll the ledger back. -/
theorem rejection_preserves_commit (env : Env) (payload : Json) (side : String)
    (hv : validateSignal payload = Except.ok side)
    (h : (∃ b, (execute_trade env side).1 = Except.error (TradeErr.balanceTooLow b)) ∨
         (∃ u, (execute_trade env side).1 = Except.error (TradeErr.positionTooSmall u))) :
    (webhook env payload).1 = 400 ∧
    ∃ cr, (close_all_positions env).1 = Except.ok cr ∧
      save_balance (env.storedBalance + cr.realized_pl) ∈ (webhook env payload).2 := by
  obtain ⟨htr, h400b, h400s⟩ := webhook_of_valid env payload side hv
  have hcr : ∃ cr, (close_all_positions env).1 = Except.ok cr := by
    cases hclp : (close_all_positions env).1 with
    | ok cr2 => exact ⟨cr2, rfl⟩
    | error e =>
      cases e
      have hexec := close_error_trace env side hclp
      rcases h with ⟨bb, hb⟩ | ⟨uu, hu⟩
      · rw [hexec] at hb
        simp at hb
      · rw [hexec] at hu
        simp at hu
  obtain ⟨cr, hc⟩ := hcr
  refine ⟨?_, cr, hc, ?_⟩
  · rcases h with ⟨bb, hb⟩ | ⟨uu, hu⟩
    · exact h400b bb hb
    · exact h400s uu hu
  · rw [htr]
    exact save_mem_of_close_ok env side cr hc

/-- Claim C10, witness at the losing-close scenario. -/
theorem rejection_preserves_commit_witness :
    validateSignal nestedBuyPayload = Except.ok "BUY" ∧
    ((∃ b, (execute_trade envLosingClose "BUY").1 =
        Except.error (TradeErr.balanceTooLow b)) ∨
     (∃ u, (execute_trade envLosingClose "BUY").1 =
        Except.error (TradeErr.positionTooSmall u))) ∧
    ((webhook envLosingClose nestedBuyPayload).1 = 400 ∧
     ∃ cr, (close_all_positions envLosingClose).1 = Except.ok cr ∧
       save_balance (envLosingClose.storedBalance + cr.realized_pl) ∈
         (webhook envLosingClose nestedBuyPayload).2) :=
  ⟨nested_buy_ok, Or.inl ⟨-30, by rw [envLosingClose_eval]⟩,
   rejection_preserves_commit envLosingClose nestedBuyPayload "BUY" nested_buy_ok
     (Or.inl ⟨-30, by rw [envLosingClose_eval]⟩)⟩

end WebhookTrader
